import Mathlib

/-!
Shallow embedding of the nightfall_3 transaction-admission checker
(`nightfall-optimist/src/services/transaction-checker.mjs`).

Modelling conventions:
* 32-byte field values (addresses, commitments, nullifiers, compressed
  secrets, proof elements, hashes, roots) are compared in the source against
  a canonical `ZERO` hex sentinel; they are modelled as natural numbers with
  `ZERO = 0`.
* JavaScript array index reads `a[i] === ZERO` are modelled with
  `List.get?`: a read past the end gives `undefined`, which is `!== ZERO`,
  so `a[i] === ZERO` becomes `a.get? i == some ZERO`.
* External collaborators are explicit function parameters: the block store
  `getBlockByBlockNumberL2 : Nat → Option Block`, the on-chain
  verification-key read `getVerificationKey : Nat → List Nat`, the remote
  zokrates verifier `verify : List Nat → List Nat → List Nat → Bool`
  (key, proof, public inputs), and the transaction-hash recomputation
  `checkHash : Transaction → Bool` (the `Transaction.checkHash` class
  method lives outside the shown sources; it is modelled from the spec as
  an abstract predicate that recomputes and compares the canonical hash).
* A thrown `TransactionError(message, code)` is the value
  `JsError.transactionError message code`; a JavaScript runtime exception
  that is not a `TransactionError` (reading an element that does not exist
  and feeding `undefined` to `generalise`) is `JsError.typeError`.
-/

namespace NF

/-- Canonical ZERO sentinel from the configuration, modelled numerically. -/
def ZERO : Nat := 0

/-- A transaction as consumed by the checker: the fields read by
`transaction-checker.mjs` (`fee` is never read there and is omitted). -/
structure Transaction where
  transactionType : Nat
  value : Nat
  tokenType : Nat
  tokenId : Nat
  ercAddress : Nat
  recipientAddress : Nat
  publicInputHash : Nat
  commitments : List Nat
  nullifiers : List Nat
  compressedSecrets : List Nat
  proof : List Nat
  historicRootBlockNumberL2 : Nat × Nat
  transactionHash : Nat
deriving DecidableEq

/-- A layer-2 block as returned by the block store; the checker only reads
its `root`. -/
structure Block where
  root : Nat
deriving DecidableEq

/-- Errors the checker can surface: `TransactionError(message, code)` values,
or a plain runtime `TypeError` (not a `TransactionError`). -/
inductive JsError where
  | transactionError (message : String) (code : Nat)
  | typeError
deriving DecidableEq

/-- Error thrown by `checkTransactionHash` (code 0). -/
def hashMismatchError : JsError :=
  .transactionError "The transaction hash did not match the transaction data" 0

/-- Error thrown by `checkTransactionType` (code 1), naming the violated
transaction type. -/
def typeInconsistentError (violated : String) : JsError :=
  .transactionError
    ("The data provided was inconsistent with a transaction type of " ++ violated) 1

/-- Error thrown for a type code outside 0..3 (code 2). -/
def unknownTransactionTypeError : JsError :=
  .transactionError "Unknown transaction type" 2

/-- Error thrown by `checkHistoricRoot` (code 3). -/
def historicRootError : JsError :=
  .transactionError "The historic root in the transaction does not exist" 3

/-- Error thrown by `verifyProof` when the remote verifier answers false
(code 5). -/
def proofInvalidError : JsError :=
  .transactionError "The proof did not verify" 5

/-- `checkTransactionHash`: recompute the canonical hash and compare.
`Transaction.checkHash` is defined outside the shown sources and is passed
in as the abstract predicate `checkHash`. -/
def checkTransactionHash (checkHash : Transaction → Bool) (t : Transaction) :
    Except JsError Unit :=
  if checkHash t then .ok () else .error hashMismatchError

/-- The rejection disjunction of `checkTransactionType` case 0 (DEPOSIT). -/
def depositInconsistent (t : Transaction) : Bool :=
  t.publicInputHash == ZERO ||
  (t.tokenType != 0 && t.tokenId == ZERO && t.value == 0) ||
  t.ercAddress == ZERO ||
  t.recipientAddress != ZERO ||
  t.commitments.get? 0 == some ZERO ||
  t.commitments.get? 1 != some ZERO ||
  t.commitments.length != 2 ||
  t.nullifiers.any (fun n => n != ZERO) ||
  t.compressedSecrets.any (fun cs => cs != ZERO) ||
  t.compressedSecrets.length != 8 ||
  t.proof.all (fun p => p == ZERO) ||
  t.historicRootBlockNumberL2.1 != 0 ||
  t.historicRootBlockNumberL2.2 != 0

/-- The rejection disjunction of `checkTransactionType` case 1
(SINGLE_TRANSFER). -/
def singleTransferInconsistent (t : Transaction) : Bool :=
  t.publicInputHash == ZERO ||
  t.tokenId != ZERO ||
  t.value != 0 ||
  t.ercAddress == ZERO ||
  t.recipientAddress != ZERO ||
  t.commitments.get? 0 == some ZERO ||
  t.commitments.get? 1 != some ZERO ||
  t.commitments.length != 2 ||
  t.nullifiers.get? 0 == some ZERO ||
  t.nullifiers.get? 1 != some ZERO ||
  t.nullifiers.length != 2 ||
  t.compressedSecrets.all (fun cs => cs == ZERO) ||
  t.compressedSecrets.length != 8 ||
  t.proof.all (fun p => p == ZERO)

/-- The rejection disjunction of `checkTransactionType` case 2
(DOUBLE_TRANSFER). -/
def doubleTransferInconsistent (t : Transaction) : Bool :=
  t.publicInputHash == ZERO ||
  t.tokenId != ZERO ||
  t.value != 0 ||
  t.ercAddress == ZERO ||
  t.recipientAddress != ZERO ||
  t.commitments.any (fun c => c == ZERO) ||
  t.commitments.length != 2 ||
  t.nullifiers.any (fun n => n == ZERO) ||
  t.nullifiers.length != 2 ||
  t.compressedSecrets.all (fun cs => cs == ZERO) ||
  t.compressedSecrets.length != 8 ||
  t.proof.all (fun p => p == ZERO)

/-- The rejection disjunction of `checkTransactionType` case 3 (WITHDRAW). -/
def withdrawInconsistent (t : Transaction) : Bool :=
  t.publicInputHash == ZERO ||
  (t.tokenType != 0 && t.tokenId == ZERO && t.value == 0) ||
  t.ercAddress == ZERO ||
  t.recipientAddress == ZERO ||
  t.commitments.any (fun c => c != ZERO) ||
  t.nullifiers.get? 0 == some ZERO ||
  t.nullifiers.get? 1 != some ZERO ||
  t.nullifiers.length != 2 ||
  t.compressedSecrets.any (fun cs => cs != ZERO) ||
  t.proof.all (fun p => p == ZERO)

/-- `checkTransactionType`: the switch over `Number(transaction.transactionType)`
with a structural template per case and `Unknown transaction type` as the
default. -/
def checkTransactionType (t : Transaction) : Except JsError Unit :=
  match t.transactionType with
  | 0 =>
    if depositInconsistent t then .error (typeInconsistentError "DEPOSIT") else .ok ()
  | 1 =>
    if singleTransferInconsistent t then .error (typeInconsistentError "SINGLE_TRANSFER")
    else .ok ()
  | 2 =>
    if doubleTransferInconsistent t then .error (typeInconsistentError "DOUBLE_TRANSFER")
    else .ok ()
  | 3 =>
    if withdrawInconsistent t then .error (typeInconsistentError "WITHDRAW") else .ok ()
  | _ => .error unknownTransactionTypeError

/-- `checkHistoricRoot`: types 1 and 3 require the first referenced historic
block to resolve, type 2 requires both; every other type performs no lookup. -/
def checkHistoricRoot (getBlockByBlockNumberL2 : Nat → Option Block)
    (t : Transaction) : Except JsError Unit :=
  if (t.transactionType == 1 || t.transactionType == 3) &&
      (getBlockByBlockNumberL2 t.historicRootBlockNumberL2.1).isNone then
    .error historicRootError
  else if t.transactionType == 2 &&
      ((getBlockByBlockNumberL2 t.historicRootBlockNumberL2.1).isNone ||
       (getBlockByBlockNumberL2 t.historicRootBlockNumberL2.2).isNone) then
    .error historicRootError
  else .ok ()

/-- Modelled from the spec: `generalise(x).hex(32, 31)` of the external
`general-number` package re-encodes a field element keeping exactly its low
31 bytes (the spec's truncation rule: the value is re-encoded to exactly
31 bytes, losing the top byte). -/
def trunc31 (n : Nat) : Nat := n % 256 ^ 31

/-- `toBytesBE len n` is the big-endian `len`-byte representation of `n`
(most significant byte first), used to state the byte-exactness of
truncation. -/
def toBytesBE : Nat → Nat → List Nat
  | 0, _ => []
  | len + 1, n => n / 256 ^ len % 256 :: toBytesBE len (n % 256 ^ len)

/-- The public-input vector assembly inside `verifyProof`.

Modelled from the spec: the `PublicInputs` wrapper class
(`nightfall-optimist/src/classes`, not among the shown sources) turns the
possibly nested argument list into the flat canonical ordered public-input
vector of spec §4.4, so nested arrays (`transaction.commitments`,
`transaction.nullifiers.map(...)` in the DOUBLE_TRANSFER case) contribute
their elements in order.  Historic roots are resolved first, a missing block
defaulting to one whose root is `ZERO` via the nullish-coalescing fallback
in the source.
Reading a slot that does not exist (`transaction.commitments[0]` on an empty
list) feeds `undefined` to `generalise`, a runtime `typeError`. -/
def buildPublicInputs (getBlockByBlockNumberL2 : Nat → Option Block)
    (t : Transaction) : Except JsError (List Nat) :=
  let historicRootFirst : Block :=
    (getBlockByBlockNumberL2 t.historicRootBlockNumberL2.1).getD ⟨ZERO⟩
  let historicRootSecond : Block :=
    (getBlockByBlockNumberL2 t.historicRootBlockNumberL2.2).getD ⟨ZERO⟩
  match t.transactionType with
  | 0 =>
    match t.commitments.get? 0 with
    | some c0 => .ok [t.ercAddress, t.tokenId, t.value, c0]
    | none => .error .typeError
  | 1 =>
    match t.commitments.get? 0, t.nullifiers.get? 0 with
    | some c0, some n0 =>
      .ok ([t.ercAddress, c0, trunc31 n0, historicRootFirst.root] ++
        t.compressedSecrets.map trunc31)
    | _, _ => .error .typeError
  | 2 =>
    .ok ([t.ercAddress, t.ercAddress] ++
      t.commitments ++
      t.nullifiers.map trunc31 ++
      [historicRootFirst.root, historicRootSecond.root] ++
      t.compressedSecrets.map trunc31)
  | 3 =>
    match t.nullifiers.get? 0 with
    | some n0 =>
      .ok [t.ercAddress, t.tokenId, t.value, trunc31 n0, t.recipientAddress,
        historicRootFirst.root]
    | none => .error .typeError
  | _ => .error unknownTransactionTypeError

/-- `verifyProof`: fetch the type's verification key, assemble the public
inputs, submit key/proof/inputs to the remote verifier and fail with
`The proof did not verify` on a false answer. -/
def verifyProof (getVerificationKey : Nat → List Nat)
    (verify : List Nat → List Nat → List Nat → Bool)
    (getBlockByBlockNumberL2 : Nat → Option Block)
    (t : Transaction) : Except JsError Unit :=
  match buildPublicInputs getBlockByBlockNumberL2 t with
  | .error e => .error e
  | .ok inputs =>
    if verify (getVerificationKey t.transactionType) t.proof inputs then .ok ()
    else .error proofInvalidError

/-- The outcomes `checkTransaction`'s `Promise.all` may settle with.
`checkTransactionHash` and `checkTransactionType` reject synchronously, so
their rejections (in array order) always beat the await-suspended
`checkHistoricRoot` and `verifyProof`; which of the latter two surfaces
first depends on I/O completion order, so both are admissible once the two
synchronous checks pass. -/
inductive checkTransactionYields (checkHash : Transaction → Bool)
    (getBlockByBlockNumberL2 : Nat → Option Block)
    (getVerificationKey : Nat → List Nat)
    (verify : List Nat → List Nat → List Nat → Bool)
    (t : Transaction) : Except JsError Unit → Prop where
  | allOk :
      checkTransactionHash checkHash t = .ok () →
      checkTransactionType t = .ok () →
      checkHistoricRoot getBlockByBlockNumberL2 t = .ok () →
      verifyProof getVerificationKey verify getBlockByBlockNumberL2 t = .ok () →
      checkTransactionYields checkHash getBlockByBlockNumberL2 getVerificationKey
        verify t (.ok ())
  | hashFirst (e : JsError) :
      checkTransactionHash checkHash t = .error e →
      checkTransactionYields checkHash getBlockByBlockNumberL2 getVerificationKey
        verify t (.error e)
  | typeSecond (e : JsError) :
      checkTransactionHash checkHash t = .ok () →
      checkTransactionType t = .error e →
      checkTransactionYields checkHash getBlockByBlockNumberL2 getVerificationKey
        verify t (.error e)
  | historicRace (e : JsError) :
      checkTransactionHash checkHash t = .ok () →
      checkTransactionType t = .ok () →
      checkHistoricRoot getBlockByBlockNumberL2 t = .error e →
      checkTransactionYields checkHash getBlockByBlockNumberL2 getVerificationKey
        verify t (.error e)
  | proofRace (e : JsError) :
      checkTransactionHash checkHash t = .ok () →
      checkTransactionType t = .ok () →
      verifyProof getVerificationKey verify getBlockByBlockNumberL2 t = .error e →
      checkTransactionYields checkHash getBlockByBlockNumberL2 getVerificationKey
        verify t (.error e)

/-! ### Helper lemmas shared between the claim theorems -/

theorem buildPublicInputs_deposit (gb : Nat → Option Block) (t : Transaction) (c0 : Nat)
    (ht : t.transactionType = 0) (hc : t.commitments.get? 0 = some c0) :
    buildPublicInputs gb t = .ok [t.ercAddress, t.tokenId, t.value, c0] := by
  obtain ⟨ty, v, tt, tid, erc, rec, pih, cs, ns, sec, prf, hr, th⟩ := t
  simp only at ht hc
  subst ht
  simp only [buildPublicInputs]
  rw [hc]

theorem buildPublicInputs_single (gb : Nat → Option Block) (t : Transaction) (c0 n0 : Nat)
    (ht : t.transactionType = 1) (hc : t.commitments.get? 0 = some c0)
    (hn : t.nullifiers.get? 0 = some n0) :
    buildPublicInputs gb t =
      .ok ([t.ercAddress, c0, trunc31 n0,
        ((gb t.historicRootBlockNumberL2.1).getD ⟨ZERO⟩).root] ++
        t.compressedSecrets.map trunc31) := by
  obtain ⟨ty, v, tt, tid, erc, rec, pih, cs, ns, sec, prf, hr, th⟩ := t
  simp only at ht hc hn
  subst ht
  simp only [buildPublicInputs]
  rw [hc, hn]

theorem buildPublicInputs_double (gb : Nat → Option Block) (t : Transaction)
    (ht : t.transactionType = 2) :
    buildPublicInputs gb t =
      .ok ([t.ercAddress, t.ercAddress] ++
        t.commitments ++
        t.nullifiers.map trunc31 ++
        [((gb t.historicRootBlockNumberL2.1).getD ⟨ZERO⟩).root,
         ((gb t.historicRootBlockNumberL2.2).getD ⟨ZERO⟩).root] ++
        t.compressedSecrets.map trunc31) := by
  obtain ⟨ty, v, tt, tid, erc, rec, pih, cs, ns, sec, prf, hr, th⟩ := t
  simp only at ht
  subst ht
  simp only [buildPublicInputs]

theorem buildPublicInputs_withdraw (gb : Nat → Option Block) (t : Transaction) (n0 : Nat)
    (ht : t.transactionType = 3) (hn : t.nullifiers.get? 0 = some n0) :
    buildPublicInputs gb t =
      .ok [t.ercAddress, t.tokenId, t.value, trunc31 n0, t.recipientAddress,
        ((gb t.historicRootBlockNumberL2.1).getD ⟨ZERO⟩).root] := by
  obtain ⟨ty, v, tt, tid, erc, rec, pih, cs, ns, sec, prf, hr, th⟩ := t
  simp only at ht hn
  subst ht
  simp only [buildPublicInputs]
  rw [hn]

theorem buildPublicInputs_unknown (gb : Nat → Option Block) (t : Transaction)
    (ht : 4 ≤ t.transactionType) :
    buildPublicInputs gb t = .error unknownTransactionTypeError := by
  obtain ⟨ty, v, tt, tid, erc, rec, pih, cs, ns, sec, prf, hr, th⟩ := t
  simp only at ht
  obtain ⟨n, rfl⟩ : ∃ n, ty = n + 4 := ⟨ty - 4, by omega⟩
  rfl

theorem checkTransactionType_deposit_ok (t : Transaction) (ht : t.transactionType = 0) :
    checkTransactionType t = .ok () ↔ depositInconsistent t = false := by
  obtain ⟨ty, v, tt, tid, erc, rec, pih, cs, ns, sec, prf, hr, th⟩ := t
  simp only at ht
  subst ht
  simp only [checkTransactionType]
  cases h : depositInconsistent ⟨0, v, tt, tid, erc, rec, pih, cs, ns, sec, prf, hr, th⟩ <;>
    simp [h]

theorem checkTransactionType_single_ok (t : Transaction) (ht : t.transactionType = 1) :
    checkTransactionType t = .ok () ↔ singleTransferInconsistent t = false := by
  obtain ⟨ty, v, tt, tid, erc, rec, pih, cs, ns, sec, prf, hr, th⟩ := t
  simp only at ht
  subst ht
  simp only [checkTransactionType]
  cases h : singleTransferInconsistent ⟨1, v, tt, tid, erc, rec, pih, cs, ns, sec, prf, hr, th⟩ <;>
    simp [h]

theorem checkTransactionType_double_ok (t : Transaction) (ht : t.transactionType = 2) :
    checkTransactionType t = .ok () ↔ doubleTransferInconsistent t = false := by
  obtain ⟨ty, v, tt, tid, erc, rec, pih, cs, ns, sec, prf, hr, th⟩ := t
  simp only at ht
  subst ht
  simp only [checkTransactionType]
  cases h : doubleTransferInconsistent ⟨2, v, tt, tid, erc, rec, pih, cs, ns, sec, prf, hr, th⟩ <;>
    simp [h]

theorem checkTransactionType_withdraw_ok (t : Transaction) (ht : t.transactionType = 3) :
    checkTransactionType t = .ok () ↔ withdrawInconsistent t = false := by
  obtain ⟨ty, v, tt, tid, erc, rec, pih, cs, ns, sec, prf, hr, th⟩ := t
  simp only at ht
  subst ht
  simp only [checkTransactionType]
  cases h : withdrawInconsistent ⟨3, v, tt, tid, erc, rec, pih, cs, ns, sec, prf, hr, th⟩ <;>
    simp [h]

theorem checkTransactionType_deposit_cases (t : Transaction) (ht : t.transactionType = 0) :
    checkTransactionType t = .ok () ∨
      checkTransactionType t = .error (typeInconsistentError "DEPOSIT") := by
  obtain ⟨ty, v, tt, tid, erc, rec, pih, cs, ns, sec, prf, hr, th⟩ := t
  simp only at ht
  subst ht
  simp only [checkTransactionType]
  cases depositInconsistent ⟨0, v, tt, tid, erc, rec, pih, cs, ns, sec, prf, hr, th⟩ <;>
    simp

theorem checkTransactionType_withdraw_cases (t : Transaction) (ht : t.transactionType = 3) :
    checkTransactionType t = .ok () ∨
      checkTransactionType t = .error (typeInconsistentError "WITHDRAW") := by
  obtain ⟨ty, v, tt, tid, erc, rec, pih, cs, ns, sec, prf, hr, th⟩ := t
  simp only at ht
  subst ht
  simp only [checkTransactionType]
  cases withdrawInconsistent ⟨3, v, tt, tid, erc, rec, pih, cs, ns, sec, prf, hr, th⟩ <;>
    simp

theorem checkTransactionType_unknown (t : Transaction) (ht : 4 ≤ t.transactionType) :
    checkTransactionType t = .error unknownTransactionTypeError := by
  obtain ⟨ty, v, tt, tid, erc, rec, pih, cs, ns, sec, prf, hr, th⟩ := t
  simp only at ht
  obtain ⟨n, rfl⟩ : ∃ n, ty = n + 4 := ⟨ty - 4, by omega⟩
  rfl

theorem depositInconsistent_eq_false (t : Transaction) :
    depositInconsistent t = false ↔
      (t.publicInputHash ≠ 0 ∧
       (t.tokenType = 0 ∨ t.tokenId ≠ 0 ∨ t.value ≠ 0) ∧
       t.ercAddress ≠ 0 ∧
       t.recipientAddress = 0 ∧
       t.commitments.get? 0 ≠ some 0 ∧
       t.commitments.get? 1 = some 0 ∧
       t.commitments.length = 2 ∧
       (∀ n ∈ t.nullifiers, n = 0) ∧
       (∀ cs ∈ t.compressedSecrets, cs = 0) ∧
       t.compressedSecrets.length = 8 ∧
       (∃ p ∈ t.proof, p ≠ 0) ∧
       t.historicRootBlockNumberL2.1 = 0 ∧
       t.historicRootBlockNumberL2.2 = 0) := by
  simp only [depositInconsistent, ZERO, Bool.or_eq_false_iff, Bool.and_eq_false_iff,
    beq_eq_false_iff_ne, bne_eq_false_iff_eq, List.any_eq_false, List.all_eq_false,
    bne_iff_ne, beq_iff_eq, not_not]
  tauto

theorem singleTransferInconsistent_eq_false (t : Transaction) :
    singleTransferInconsistent t = false ↔
      (t.publicInputHash ≠ 0 ∧
       t.tokenId = 0 ∧
       t.value = 0 ∧
       t.ercAddress ≠ 0 ∧
       t.recipientAddress = 0 ∧
       t.commitments.get? 0 ≠ some 0 ∧
       t.commitments.get? 1 = some 0 ∧
       t.commitments.length = 2 ∧
       t.nullifiers.get? 0 ≠ some 0 ∧
       t.nullifiers.get? 1 = some 0 ∧
       t.nullifiers.length = 2 ∧
       (∃ cs ∈ t.compressedSecrets, cs ≠ 0) ∧
       t.compressedSecrets.length = 8 ∧
       (∃ p ∈ t.proof, p ≠ 0)) := by
  simp only [singleTransferInconsistent, ZERO, Bool.or_eq_false_iff, Bool.and_eq_false_iff,
    beq_eq_false_iff_ne, bne_eq_false_iff_eq, List.any_eq_false, List.all_eq_false,
    bne_iff_ne, beq_iff_eq, not_not]
  tauto

theorem doubleTransferInconsistent_eq_false (t : Transaction) :
    doubleTransferInconsistent t = false ↔
      (t.publicInputHash ≠ 0 ∧
       t.tokenId = 0 ∧
       t.value = 0 ∧
       t.ercAddress ≠ 0 ∧
       t.recipientAddress = 0 ∧
       (∀ c ∈ t.commitments, c ≠ 0) ∧
       t.commitments.length = 2 ∧
       (∀ n ∈ t.nullifiers, n ≠ 0) ∧
       t.nullifiers.length = 2 ∧
       (∃ cs ∈ t.compressedSecrets, cs ≠ 0) ∧
       t.compressedSecrets.length = 8 ∧
       (∃ p ∈ t.proof, p ≠ 0)) := by
  simp only [doubleTransferInconsistent, ZERO, Bool.or_eq_false_iff, Bool.and_eq_false_iff,
    beq_eq_false_iff_ne, bne_eq_false_iff_eq, List.any_eq_false, List.all_eq_false,
    bne_iff_ne, beq_iff_eq, not_not]
  tauto

theorem withdrawInconsistent_eq_false (t : Transaction) :
    withdrawInconsistent t = false ↔
      (t.publicInputHash ≠ 0 ∧
       (t.tokenType = 0 ∨ t.tokenId ≠ 0 ∨ t.value ≠ 0) ∧
       t.ercAddress ≠ 0 ∧
       t.recipientAddress ≠ 0 ∧
       (∀ c ∈ t.commitments, c = 0) ∧
       t.nullifiers.get? 0 ≠ some 0 ∧
       t.nullifiers.get? 1 = some 0 ∧
       t.nullifiers.length = 2 ∧
       (∀ cs ∈ t.compressedSecrets, cs = 0) ∧
       (∃ p ∈ t.proof, p ≠ 0)) := by
  simp only [withdrawInconsistent, ZERO, Bool.or_eq_false_iff, Bool.and_eq_false_iff,
    beq_eq_false_iff_ne, bne_eq_false_iff_eq, List.any_eq_false, List.all_eq_false,
    bne_iff_ne, beq_iff_eq, not_not]
  tauto

theorem checkHistoricRoot_error_iff (gb : Nat → Option Block) (t : Transaction) :
    checkHistoricRoot gb t = .error historicRootError ↔
      (((t.transactionType = 1 ∨ t.transactionType = 3) ∧
          gb t.historicRootBlockNumberL2.1 = none) ∨
       (t.transactionType = 2 ∧
          (gb t.historicRootBlockNumberL2.1 = none ∨
           gb t.historicRootBlockNumberL2.2 = none))) := by
  simp only [checkHistoricRoot]
  split_ifs with ha hb
  · simp only [Bool.and_eq_true, Bool.or_eq_true, beq_iff_eq,
      Option.isNone_iff_eq_none] at ha
    simp only [true_iff, eq_self_iff_true]
    tauto
  · simp only [Bool.and_eq_true, Bool.or_eq_true, beq_iff_eq,
      Option.isNone_iff_eq_none] at hb
    simp only [true_iff, eq_self_iff_true]
    tauto
  · simp only [Bool.and_eq_true, Bool.or_eq_true, beq_iff_eq,
      Option.isNone_iff_eq_none] at ha hb
    constructor
    · intro h
      exact absurd h (by simp [historicRootError])
    · intro h
      tauto

theorem checkHistoricRoot_cases (gb : Nat → Option Block) (t : Transaction) :
    checkHistoricRoot gb t = .ok () ∨ checkHistoricRoot gb t = .error historicRootError := by
  simp only [checkHistoricRoot]
  split_ifs <;> simp

theorem checkHistoricRoot_no_lookup (t : Transaction) (h1 : t.transactionType ≠ 1)
    (h2 : t.transactionType ≠ 2) (h3 : t.transactionType ≠ 3) (gb : Nat → Option Block) :
    checkHistoricRoot gb t = .ok () := by
  simp only [checkHistoricRoot]
  split_ifs with ha hb
  · exfalso
    simp only [Bool.and_eq_true, Bool.or_eq_true, beq_iff_eq] at ha
    tauto
  · exfalso
    simp only [Bool.and_eq_true, Bool.or_eq_true, beq_iff_eq] at hb
    tauto
  · rfl

theorem yields_ok_iff (ch : Transaction → Bool) (gb : Nat → Option Block)
    (gvk : Nat → List Nat) (vf : List Nat → List Nat → List Nat → Bool)
    (t : Transaction) :
    checkTransactionYields ch gb gvk vf t (.ok ()) ↔
      (checkTransactionHash ch t = .ok () ∧ checkTransactionType t = .ok () ∧
       checkHistoricRoot gb t = .ok () ∧ verifyProof gvk vf gb t = .ok ()) := by
  constructor
  · intro h
    cases h with
    | allOk h1 h2 h3 h4 => exact ⟨h1, h2, h3, h4⟩
  · rintro ⟨h1, h2, h3, h4⟩
    exact .allOk h1 h2 h3 h4

theorem yields_error_cases (ch : Transaction → Bool) (gb : Nat → Option Block)
    (gvk : Nat → List Nat) (vf : List Nat → List Nat → List Nat → Bool)
    (t : Transaction) (e : JsError)
    (h : checkTransactionYields ch gb gvk vf t (.error e)) :
    checkTransactionHash ch t = .error e ∨ checkTransactionType t = .error e ∨
      checkHistoricRoot gb t = .error e ∨ verifyProof gvk vf gb t = .error e := by
  cases h with
  | hashFirst _ h1 => exact Or.inl h1
  | typeSecond _ _ h2 => exact Or.inr (Or.inl h2)
  | historicRace _ _ _ h3 => exact Or.inr (Or.inr (Or.inl h3))
  | proofRace _ _ _ h4 => exact Or.inr (Or.inr (Or.inr h4))

theorem yields_total (ch : Transaction → Bool) (gb : Nat → Option Block)
    (gvk : Nat → List Nat) (vf : List Nat → List Nat → List Nat → Bool)
    (t : Transaction) : ∃ r, checkTransactionYields ch gb gvk vf t r := by
  cases h1 : checkTransactionHash ch t with
  | error e => exact ⟨.error e, .hashFirst e h1⟩
  | ok u =>
    cases u
    cases h2 : checkTransactionType t with
    | error e => exact ⟨.error e, .typeSecond e h1 h2⟩
    | ok u2 =>
      cases u2
      cases h3 : checkHistoricRoot gb t with
      | error e => exact ⟨.error e, .historicRace e h1 h2 h3⟩
      | ok u3 =>
        cases u3
        cases h4 : verifyProof gvk vf gb t with
        | error e => exact ⟨.error e, .proofRace e h1 h2 h4⟩
        | ok u4 =>
          cases u4
          exact ⟨.ok (), .allOk h1 h2 h3 h4⟩

theorem yields_char (ch : Transaction → Bool) (gb : Nat → Option Block)
    (gvk : Nat → List Nat) (vf : List Nat → List Nat → List Nat → Bool)
    (t : Transaction) (r : Except JsError Unit)
    (h : checkTransactionYields ch gb gvk vf t r) :
    r = .ok () ↔
      (checkTransactionHash ch t = .ok () ∧ checkTransactionType t = .ok () ∧
       checkHistoricRoot gb t = .ok () ∧ verifyProof gvk vf gb t = .ok ()) := by
  cases h with
  | allOk h1 h2 h3 h4 => simp [h1, h2, h3, h4]
  | hashFirst e h1 =>
    simp only [iff_false_intro, reduceCtorEq, false_iff]
    rintro ⟨hh, -, -, -⟩
    rw [h1] at hh
    exact absurd hh (by simp)
  | typeSecond e h1 h2 =>
    simp only [reduceCtorEq, false_iff]
    rintro ⟨-, hh, -, -⟩
    rw [h2] at hh
    exact absurd hh (by simp)
  | historicRace e h1 h2 h3 =>
    simp only [reduceCtorEq, false_iff]
    rintro ⟨-, -, hh, -⟩
    rw [h3] at hh
    exact absurd hh (by simp)
  | proofRace e h1 h2 h4 =>
    simp only [reduceCtorEq, false_iff]
    rintro ⟨-, -, -, hh⟩
    rw [h4] at hh
    exact absurd hh (by simp)

theorem toBytesBE_trunc31 (n : Nat) (hn : n < 256 ^ 32) :
    toBytesBE 32 n = n / 256 ^ 31 :: toBytesBE 31 (trunc31 n) := by
  have hd : n / 256 ^ 31 < 256 := by
    apply Nat.div_lt_of_lt_mul
    calc n < 256 ^ 32 := hn
    _ = 256 ^ 31 * 256 := by rw [pow_succ]
  show toBytesBE (31 + 1) n = _
  rw [toBytesBE, trunc31, Nat.mod_eq_of_lt hd]

/-! ### Concrete sample collaborators and transactions used by witnesses -/

/-- A block store with no blocks at all. -/
def emptyStore : Nat → Option Block := fun _ => none

/-- A block store holding a block at every index, with root index + 100. -/
def fullStore : Nat → Option Block := fun i => some ⟨i + 100⟩

/-- A hash recomputation that always matches. -/
def alwaysTrueHash : Transaction → Bool := fun _ => true

/-- A hash recomputation that never matches. -/
def alwaysFalseHash : Transaction → Bool := fun _ => false

/-- A chain-state read returning an empty verification key. -/
def noVerificationKeys : Nat → List Nat := fun _ => []

/-- A remote verifier that accepts every proof. -/
def allAcceptVerifier : List Nat → List Nat → List Nat → Bool := fun _ _ _ => true

/-- A remote verifier that rejects every proof. -/
def allRejectVerifier : List Nat → List Nat → List Nat → Bool := fun _ _ _ => false

/-- A well-formed DEPOSIT transaction with the literal field values of the
spec's golden example: ercAddress 0x1, commitments slot 0 holding 0x2,
tokenId 0x3, value 5. -/
def depositSample : Transaction :=
  { transactionType := 0, value := 5, tokenType := 0, tokenId := 3, ercAddress := 1,
    recipientAddress := 0, publicInputHash := 1, commitments := [2, 0],
    nullifiers := [0, 0], compressedSecrets := [0, 0, 0, 0, 0, 0, 0, 0], proof := [1],
    historicRootBlockNumberL2 := (0, 0), transactionHash := 0 }

/-- A DEPOSIT transaction violating the tokenType/tokenId/value rule:
non-fungible tokenType with tokenId ZERO and value 0. -/
def depositBadToken : Transaction :=
  { transactionType := 0, value := 0, tokenType := 1, tokenId := 0, ercAddress := 1,
    recipientAddress := 0, publicInputHash := 1, commitments := [2, 0],
    nullifiers := [0, 0], compressedSecrets := [0, 0, 0, 0, 0, 0, 0, 0], proof := [1],
    historicRootBlockNumberL2 := (0, 0), transactionHash := 0 }

/-- A well-formed SINGLE_TRANSFER transaction. -/
def singleSample : Transaction :=
  { transactionType := 1, value := 0, tokenType := 0, tokenId := 0, ercAddress := 1,
    recipientAddress := 0, publicInputHash := 1, commitments := [2, 0],
    nullifiers := [3, 0], compressedSecrets := [4, 0, 0, 0, 0, 0, 0, 0], proof := [1],
    historicRootBlockNumberL2 := (0, 0), transactionHash := 0 }

/-- A well-formed DOUBLE_TRANSFER transaction referencing historic blocks 5
and 6. -/
def doubleSample : Transaction :=
  { transactionType := 2, value := 0, tokenType := 0, tokenId := 0, ercAddress := 9,
    recipientAddress := 0, publicInputHash := 1, commitments := [11, 12],
    nullifiers := [13, 14], compressedSecrets := [21, 22, 23, 24, 25, 26, 27, 28],
    proof := [1], historicRootBlockNumberL2 := (5, 6), transactionHash := 0 }

/-- A well-formed WITHDRAW transaction. -/
def withdrawSample : Transaction :=
  { transactionType := 3, value := 5, tokenType := 0, tokenId := 0, ercAddress := 1,
    recipientAddress := 7, publicInputHash := 1, commitments := [0, 0],
    nullifiers := [3, 0], compressedSecrets := [0, 0, 0, 0, 0, 0, 0, 0], proof := [1],
    historicRootBlockNumberL2 := (0, 0), transactionHash := 0 }

/-- A transaction with the unknown type code 4. -/
def unknownTypeSample : Transaction :=
  { transactionType := 4, value := 0, tokenType := 0, tokenId := 0, ercAddress := 1,
    recipientAddress := 0, publicInputHash := 1, commitments := [2, 0],
    nullifiers := [0, 0], compressedSecrets := [0, 0, 0, 0, 0, 0, 0, 0], proof := [1],
    historicRootBlockNumberL2 := (0, 0), transactionHash := 0 }

/-! ### Claim theorems -/

/-- C8: public-input construction for DEPOSIT is deterministic and
order-stable: for every DEPOSIT transaction the assembled vector is exactly
[ercAddress, tokenId, value, commitments[0]] in that order. -/
theorem deposit_public_input_layout (gb : Nat → Option Block) (t : Transaction) (c0 : Nat)
    (ht : t.transactionType = 0) (hc : t.commitments.get? 0 = some c0) :
    buildPublicInputs gb t = .ok [t.ercAddress, t.tokenId, t.value, c0] :=
  buildPublicInputs_deposit gb t c0 ht hc

/-- C8 witness: with ercAddress 0x1, tokenId 0x3, value 5 and
commitments[0] = 0x2, the DEPOSIT vector equals [0x1, 0x3, 5, 0x2] with no
reordering. -/
theorem deposit_public_input_layout_witness :
    buildPublicInputs emptyStore depositSample = .ok [1, 3, 5, 2] :=
  deposit_public_input_layout emptyStore depositSample 2 rfl rfl

/-- C1: for every DOUBLE_TRANSFER transaction the public-input vector is
exactly the flat ordered sequence [ercAddress, ercAddress, commitments[0],
commitments[1], nullifiers[0] truncated to 31 bytes, nullifiers[1] truncated
to 31 bytes, historicRoot(first).root, historicRoot(second).root,
compressedSecrets[0..7] each truncated], with ercAddress deliberately
repeated and no other reordering or nesting. -/
theorem double_transfer_public_input_layout (gb : Nat → Option Block) (t : Transaction)
    (b1 b2 : Block) (c0 c1 n0 n1 s0 s1 s2 s3 s4 s5 s6 s7 : Nat)
    (ht : t.transactionType = 2)
    (hc : t.commitments = [c0, c1])
    (hn : t.nullifiers = [n0, n1])
    (hs : t.compressedSecrets = [s0, s1, s2, s3, s4, s5, s6, s7])
    (hb1 : gb t.historicRootBlockNumberL2.1 = some b1)
    (hb2 : gb t.historicRootBlockNumberL2.2 = some b2) :
    buildPublicInputs gb t = .ok
      [t.ercAddress, t.ercAddress, c0, c1, trunc31 n0, trunc31 n1, b1.root, b2.root,
       trunc31 s0, trunc31 s1, trunc31 s2, trunc31 s3, trunc31 s4, trunc31 s5,
       trunc31 s6, trunc31 s7] := by
  rw [buildPublicInputs_double gb t ht, hc, hn, hs, hb1, hb2]
  simp

/-- C1 witness: a concrete DOUBLE_TRANSFER with commitments [11, 12],
nullifiers [13, 14], secrets [21..28] and historic roots 105 and 106
assembles exactly the flat 16-element vector. -/
theorem double_transfer_public_input_layout_witness :
    buildPublicInputs fullStore doubleSample =
      .ok [9, 9, 11, 12, 13, 14, 105, 106, 21, 22, 23, 24, 25, 26, 27, 28] := by
  have h := double_transfer_public_input_layout fullStore doubleSample ⟨105⟩ ⟨106⟩
    11 12 13 14 21 22 23 24 25 26 27 28 rfl rfl rfl rfl rfl rfl
  simpa [trunc31] using h

/-- C2: every nullifier and compressed secret included in a SINGLE_TRANSFER,
DOUBLE_TRANSFER or WITHDRAW public-input vector enters it as `trunc31` of
the original, and `trunc31` re-encodes to exactly 31 bytes big-endian: the
32-byte representation is precisely the top byte followed by the 31-byte
representation of the truncated value, so a value with a nonzero
most-significant byte loses exactly that byte and is otherwise
byte-identical. -/
theorem nullifier_secret_truncation (n : Nat) (hn : n < 256 ^ 32) :
    toBytesBE 32 n = n / 256 ^ 31 :: toBytesBE 31 (trunc31 n) ∧
    toBytesBE 31 (trunc31 n) = (toBytesBE 32 n).drop 1 ∧
    (∀ (gb : Nat → Option Block) (t : Transaction) (c0 n0 : Nat),
      t.transactionType = 1 → t.commitments.get? 0 = some c0 →
      t.nullifiers.get? 0 = some n0 →
      buildPublicInputs gb t =
        .ok ([t.ercAddress, c0, trunc31 n0,
          ((gb t.historicRootBlockNumberL2.1).getD ⟨ZERO⟩).root] ++
          t.compressedSecrets.map trunc31)) ∧
    (∀ (gb : Nat → Option Block) (t : Transaction), t.transactionType = 2 →
      buildPublicInputs gb t =
        .ok ([t.ercAddress, t.ercAddress] ++ t.commitments ++
          t.nullifiers.map trunc31 ++
          [((gb t.historicRootBlockNumberL2.1).getD ⟨ZERO⟩).root,
           ((gb t.historicRootBlockNumberL2.2).getD ⟨ZERO⟩).root] ++
          t.compressedSecrets.map trunc31)) ∧
    (∀ (gb : Nat → Option Block) (t : Transaction) (n0 : Nat),
      t.transactionType = 3 → t.nullifiers.get? 0 = some n0 →
      buildPublicInputs gb t =
        .ok [t.ercAddress, t.tokenId, t.value, trunc31 n0, t.recipientAddress,
          ((gb t.historicRootBlockNumberL2.1).getD ⟨ZERO⟩).root]) := by
  refine ⟨toBytesBE_trunc31 n hn, ?_, ?_, ?_, ?_⟩
  · rw [toBytesBE_trunc31 n hn, List.drop_succ_cons, List.drop_zero]
  · exact fun gb t c0 n0 ht hc hn0 => buildPublicInputs_single gb t c0 n0 ht hc hn0
  · exact fun gb t ht => buildPublicInputs_double gb t ht
  · exact fun gb t n0 ht hn0 => buildPublicInputs_withdraw gb t n0 ht hn0

/-- C2 witness: the value 7·256³¹ + 5 has most-significant byte 7; truncation
keeps exactly the remaining 31 bytes, and a concrete SINGLE_TRANSFER vector
carries the truncated nullifier and secrets. -/
theorem nullifier_secret_truncation_witness :
    toBytesBE 32 (7 * 256 ^ 31 + 5) =
      (7 * 256 ^ 31 + 5) / 256 ^ 31 :: toBytesBE 31 (trunc31 (7 * 256 ^ 31 + 5)) ∧
    buildPublicInputs emptyStore singleSample =
      .ok [1, 2, 3, 0, 4, 0, 0, 0, 0, 0, 0, 0] := by
  have h := nullifier_secret_truncation (7 * 256 ^ 31 + 5) (by norm_num)
  refine ⟨h.1, ?_⟩
  have h2 := h.2.2.1 emptyStore singleSample 2 3 rfl rfl rfl
  simpa [trunc31, singleSample, emptyStore, ZERO] using h2

/-- C10: when a required historic block reference resolves to no block, the
proof-verification path of a SINGLE_TRANSFER, DOUBLE_TRANSFER or WITHDRAW
does not fail during public-input assembly: it substitutes ZERO as that
missing historic root (a DOUBLE_TRANSFER with only one missing reference
substitutes ZERO for just that root, keeping the resolved root for the
other), builds the vector anyway and submits it to the verifier, while the
missing root is reported by the concurrently running historic-root check. -/
theorem missing_historic_root_substitutes_zero
    (gvk : Nat → List Nat) (vf : List Nat → List Nat → List Nat → Bool)
    (gb : Nat → Option Block) (t : Transaction) :
    (∀ c0 n0, t.transactionType = 1 → t.commitments.get? 0 = some c0 →
      t.nullifiers.get? 0 = some n0 → gb t.historicRootBlockNumberL2.1 = none →
      buildPublicInputs gb t =
        .ok ([t.ercAddress, c0, trunc31 n0, ZERO] ++ t.compressedSecrets.map trunc31) ∧
      verifyProof gvk vf gb t =
        (if vf (gvk t.transactionType) t.proof
            ([t.ercAddress, c0, trunc31 n0, ZERO] ++ t.compressedSecrets.map trunc31)
         then .ok () else .error proofInvalidError) ∧
      checkHistoricRoot gb t = .error historicRootError) ∧
    (t.transactionType = 2 → gb t.historicRootBlockNumberL2.1 = none →
      buildPublicInputs gb t =
        .ok ([t.ercAddress, t.ercAddress] ++ t.commitments ++
          t.nullifiers.map trunc31 ++
          [ZERO, ((gb t.historicRootBlockNumberL2.2).getD ⟨ZERO⟩).root] ++
          t.compressedSecrets.map trunc31) ∧
      verifyProof gvk vf gb t =
        (if vf (gvk t.transactionType) t.proof
            ([t.ercAddress, t.ercAddress] ++ t.commitments ++
              t.nullifiers.map trunc31 ++
              [ZERO, ((gb t.historicRootBlockNumberL2.2).getD ⟨ZERO⟩).root] ++
              t.compressedSecrets.map trunc31)
         then .ok () else .error proofInvalidError) ∧
      checkHistoricRoot gb t = .error historicRootError) ∧
    (t.transactionType = 2 → gb t.historicRootBlockNumberL2.2 = none →
      buildPublicInputs gb t =
        .ok ([t.ercAddress, t.ercAddress] ++ t.commitments ++
          t.nullifiers.map trunc31 ++
          [((gb t.historicRootBlockNumberL2.1).getD ⟨ZERO⟩).root, ZERO] ++
          t.compressedSecrets.map trunc31) ∧
      verifyProof gvk vf gb t =
        (if vf (gvk t.transactionType) t.proof
            ([t.ercAddress, t.ercAddress] ++ t.commitments ++
              t.nullifiers.map trunc31 ++
              [((gb t.historicRootBlockNumberL2.1).getD ⟨ZERO⟩).root, ZERO] ++
              t.compressedSecrets.map trunc31)
         then .ok () else .error proofInvalidError) ∧
      checkHistoricRoot gb t = .error historicRootError) ∧
    (∀ n0, t.transactionType = 3 → t.nullifiers.get? 0 = some n0 →
      gb t.historicRootBlockNumberL2.1 = none →
      buildPublicInputs gb t =
        .ok [t.ercAddress, t.tokenId, t.value, trunc31 n0, t.recipientAddress, ZERO] ∧
      verifyProof gvk vf gb t =
        (if vf (gvk t.transactionType) t.proof
            [t.ercAddress, t.tokenId, t.value, trunc31 n0, t.recipientAddress, ZERO]
         then .ok () else .error proofInvalidError) ∧
      checkHistoricRoot gb t = .error historicRootError) := by
  refine ⟨?_, ?_, ?_, ?_⟩
  · intro c0 n0 ht hc hn0 hb1
    have hbuild := buildPublicInputs_single gb t c0 n0 ht hc hn0
    rw [hb1] at hbuild
    have hb : buildPublicInputs gb t =
        .ok ([t.ercAddress, c0, trunc31 n0, ZERO] ++
          t.compressedSecrets.map trunc31) := hbuild
    refine ⟨hb, ?_, ?_⟩
    · simp only [verifyProof, hb]
    · exact (checkHistoricRoot_error_iff gb t).mpr (Or.inl ⟨Or.inl ht, hb1⟩)
  · intro ht hb1
    have hbuild := buildPublicInputs_double gb t ht
    rw [hb1] at hbuild
    have hb : buildPublicInputs gb t =
        .ok ([t.ercAddress, t.ercAddress] ++ t.commitments ++
          t.nullifiers.map trunc31 ++
          [ZERO, ((gb t.historicRootBlockNumberL2.2).getD ⟨ZERO⟩).root] ++
          t.compressedSecrets.map trunc31) := hbuild
    refine ⟨hb, ?_, ?_⟩
    · simp only [verifyProof, hb]
    · exact (checkHistoricRoot_error_iff gb t).mpr (Or.inr ⟨ht, Or.inl hb1⟩)
  · intro ht hb2
    have hbuild := buildPublicInputs_double gb t ht
    rw [hb2] at hbuild
    have hb : buildPublicInputs gb t =
        .ok ([t.ercAddress, t.ercAddress] ++ t.commitments ++
          t.nullifiers.map trunc31 ++
          [((gb t.historicRootBlockNumberL2.1).getD ⟨ZERO⟩).root, ZERO] ++
          t.compressedSecrets.map trunc31) := hbuild
    refine ⟨hb, ?_, ?_⟩
    · simp only [verifyProof, hb]
    · exact (checkHistoricRoot_error_iff gb t).mpr (Or.inr ⟨ht, Or.inr hb2⟩)
  · intro n0 ht hn0 hb1
    have hbuild := buildPublicInputs_withdraw gb t n0 ht hn0
    rw [hb1] at hbuild
    have hb : buildPublicInputs gb t =
        .ok [t.ercAddress, t.tokenId, t.value, trunc31 n0, t.recipientAddress,
          ZERO] := hbuild
    refine ⟨hb, ?_, ?_⟩
    · simp only [verifyProof, hb]
    · exact (checkHistoricRoot_error_iff gb t).mpr (Or.inl ⟨Or.inr ht, hb1⟩)

/-- A block store holding only the block at index 6 (with root 106), so a
DOUBLE_TRANSFER referencing indices 5 and 6 has exactly one missing
reference. -/
def onlyBlockSixStore : Nat → Option Block := fun i => if i == 6 then some ⟨106⟩ else none

/-- C10 witness: a WITHDRAW against the empty block store builds its vector
with a ZERO root, reaches the verifier (which rejects) and gets
HistoricRootNotFound from the historic-root check; a DOUBLE_TRANSFER with
exactly one missing reference substitutes ZERO for just that root, keeps the
resolved root 106 for the other, and is likewise reported by the
historic-root check. -/
theorem missing_historic_root_substitutes_zero_witness :
    buildPublicInputs emptyStore withdrawSample = .ok [1, 0, 5, 3, 7, 0] ∧
    verifyProof noVerificationKeys allRejectVerifier emptyStore withdrawSample =
      .error proofInvalidError ∧
    checkHistoricRoot emptyStore withdrawSample = .error historicRootError ∧
    buildPublicInputs onlyBlockSixStore doubleSample =
      .ok [9, 9, 11, 12, 13, 14, 0, 106, 21, 22, 23, 24, 25, 26, 27, 28] ∧
    checkHistoricRoot onlyBlockSixStore doubleSample = .error historicRootError := by
  have h := (missing_historic_root_substitutes_zero noVerificationKeys allRejectVerifier
    emptyStore withdrawSample).2.2.2 3 rfl rfl rfl
  have hd := (missing_historic_root_substitutes_zero noVerificationKeys allRejectVerifier
    onlyBlockSixStore doubleSample).2.1 rfl rfl
  refine ⟨?_, ?_, h.2.2, ?_, hd.2.2⟩
  · have h1 := h.1
    simpa [trunc31, withdrawSample, ZERO] using h1
  · have h2 := h.2.1
    simpa [allRejectVerifier] using h2
  · have hd1 := hd.1
    simpa [trunc31, doubleSample, onlyBlockSixStore, ZERO] using hd1

/-- C4: for DEPOSIT and WITHDRAW, the tokenType/tokenId/value rule rejects
(with TypeInconsistent) exactly when tokenType is non-fungible, tokenId is
ZERO and value is 0; with every other template condition satisfied, the
transaction passes if and only if tokenType is fungible, or tokenId is not
ZERO, or value is not 0. -/
theorem token_rule_characterization :
    (∀ t : Transaction, t.transactionType = 0 → t.tokenType ≠ 0 → t.tokenId = 0 →
      t.value = 0 → checkTransactionType t = .error (typeInconsistentError "DEPOSIT")) ∧
    (∀ t : Transaction, t.transactionType = 3 → t.tokenType ≠ 0 → t.tokenId = 0 →
      t.value = 0 → checkTransactionType t = .error (typeInconsistentError "WITHDRAW")) ∧
    (∀ t : Transaction, t.transactionType = 0 →
      t.publicInputHash ≠ 0 → t.ercAddress ≠ 0 → t.recipientAddress = 0 →
      t.commitments.get? 0 ≠ some 0 → t.commitments.get? 1 = some 0 →
      t.commitments.length = 2 → (∀ n ∈ t.nullifiers, n = 0) →
      (∀ cs ∈ t.compressedSecrets, cs = 0) → t.compressedSecrets.length = 8 →
      (∃ p ∈ t.proof, p ≠ 0) → t.historicRootBlockNumberL2.1 = 0 →
      t.historicRootBlockNumberL2.2 = 0 →
      (checkTransactionType t = .ok () ↔
        (t.tokenType = 0 ∨ t.tokenId ≠ 0 ∨ t.value ≠ 0))) ∧
    (∀ t : Transaction, t.transactionType = 3 →
      t.publicInputHash ≠ 0 → t.ercAddress ≠ 0 → t.recipientAddress ≠ 0 →
      (∀ c ∈ t.commitments, c = 0) → t.nullifiers.get? 0 ≠ some 0 →
      t.nullifiers.get? 1 = some 0 → t.nullifiers.length = 2 →
      (∀ cs ∈ t.compressedSecrets, cs = 0) → (∃ p ∈ t.proof, p ≠ 0) →
      (checkTransactionType t = .ok () ↔
        (t.tokenType = 0 ∨ t.tokenId ≠ 0 ∨ t.value ≠ 0))) := by
  refine ⟨?_, ?_, ?_, ?_⟩
  · intro t ht htt htid hv
    have hbad : depositInconsistent t = true := by
      simp only [depositInconsistent, Bool.or_eq_true, Bool.and_eq_true, beq_iff_eq,
        bne_iff_ne, ZERO]
      tauto
    rcases checkTransactionType_deposit_cases t ht with hok | herr
    · rw [checkTransactionType_deposit_ok t ht] at hok
      rw [hok] at hbad
      exact absurd hbad (by simp)
    · exact herr
  · intro t ht htt htid hv
    have hbad : withdrawInconsistent t = true := by
      simp only [withdrawInconsistent, Bool.or_eq_true, Bool.and_eq_true, beq_iff_eq,
        bne_iff_ne, ZERO]
      tauto
    rcases checkTransactionType_withdraw_cases t ht with hok | herr
    · rw [checkTransactionType_withdraw_ok t ht] at hok
      rw [hok] at hbad
      exact absurd hbad (by simp)
    · exact herr
  · intro t ht h1 h2 h3 h4 h5 h6 h7 h8 h9 h10 h11 h12
    rw [checkTransactionType_deposit_ok t ht, depositInconsistent_eq_false]
    tauto
  · intro t ht h1 h2 h3 h4 h5 h6 h7 h8 h9
    rw [checkTransactionType_withdraw_ok t ht, withdrawInconsistent_eq_false]
    tauto

/-- C4 witness: a DEPOSIT with non-fungible tokenType, tokenId ZERO and
value 0 is rejected naming DEPOSIT; the same DEPOSIT with fungible
tokenType passes. -/
theorem token_rule_characterization_witness :
    checkTransactionType depositBadToken = .error (typeInconsistentError "DEPOSIT") ∧
    checkTransactionType depositSample = .ok () := by
  have h := token_rule_characterization
  refine ⟨h.1 depositBadToken rfl (by decide) rfl rfl, ?_⟩
  have h3 := h.2.2.1 depositSample rfl (by decide) (by decide) rfl (by decide) rfl rfl
    (by decide) (by decide) rfl (by decide) rfl rfl
  exact h3.mpr (Or.inl rfl)

/-- C5: a WITHDRAW passes the type-consistency check exactly when it matches
the WITHDRAW template (publicInputHash nonzero, the tokenType/tokenId/value
rule, nonzero ercAddress and recipientAddress, all commitment slots ZERO,
nullifiers of length 2 with slot 0 nonzero and slot 1 ZERO, all compressed
secrets ZERO, proof not all-ZERO); any deviation fails with TypeInconsistent
naming WITHDRAW. -/
theorem withdraw_template_characterization (t : Transaction)
    (ht : t.transactionType = 3) (hcl : t.commitments.length = 2)
    (hsl : t.compressedSecrets.length = 8) :
    (checkTransactionType t = .ok () ↔
      (t.publicInputHash ≠ 0 ∧
       (t.tokenType = 0 ∨ t.tokenId ≠ 0 ∨ t.value ≠ 0) ∧
       t.ercAddress ≠ 0 ∧
       t.recipientAddress ≠ 0 ∧
       (∀ c ∈ t.commitments, c = 0) ∧
       t.nullifiers.length = 2 ∧
       t.nullifiers.get? 0 ≠ some 0 ∧
       t.nullifiers.get? 1 = some 0 ∧
       (∀ cs ∈ t.compressedSecrets, cs = 0) ∧
       (∃ p ∈ t.proof, p ≠ 0))) ∧
    (checkTransactionType t = .ok () ∨
      checkTransactionType t = .error (typeInconsistentError "WITHDRAW")) := by
  refine ⟨?_, checkTransactionType_withdraw_cases t ht⟩
  rw [checkTransactionType_withdraw_ok t ht, withdrawInconsistent_eq_false]
  tauto

/-- C5 witness: a concrete transaction matching the WITHDRAW template is
accepted by the type-consistency check. -/
theorem withdraw_template_characterization_witness :
    checkTransactionType withdrawSample = .ok () := by
  have h := withdraw_template_characterization withdrawSample rfl rfl rfl
  exact h.1.mpr ⟨by decide, Or.inl rfl, by decide, by decide, by decide, rfl,
    by decide, rfl, by decide, by decide⟩

/-- C6: the historic-root check fails with HistoricRootNotFound exactly when
a required lookup returns null: types 1 and 3 require the first referenced
block, type 2 requires both; every other type code performs no lookup and
succeeds for every block store. -/
theorem historic_root_check_characterization (gb : Nat → Option Block)
    (t : Transaction) :
    (checkHistoricRoot gb t = .error historicRootError ↔
      (((t.transactionType = 1 ∨ t.transactionType = 3) ∧
          gb t.historicRootBlockNumberL2.1 = none) ∨
       (t.transactionType = 2 ∧
          (gb t.historicRootBlockNumberL2.1 = none ∨
           gb t.historicRootBlockNumberL2.2 = none)))) ∧
    (checkHistoricRoot gb t = .ok () ∨
      checkHistoricRoot gb t = .error historicRootError) ∧
    (t.transactionType ≠ 1 → t.transactionType ≠ 2 → t.transactionType ≠ 3 →
      ∀ gb2 : Nat → Option Block, checkHistoricRoot gb2 t = .ok ()) :=
  ⟨checkHistoricRoot_error_iff gb t, checkHistoricRoot_cases gb t,
   fun h1 h2 h3 gb2 => checkHistoricRoot_no_lookup t h1 h2 h3 gb2⟩

/-- C6 witness: a SINGLE_TRANSFER against an empty block store fails with
HistoricRootNotFound, while a DEPOSIT succeeds against the same store
without any lookup. -/
theorem historic_root_check_characterization_witness :
    checkHistoricRoot emptyStore singleSample = .error historicRootError ∧
    checkHistoricRoot emptyStore depositSample = .ok () := by
  have h1 := historic_root_check_characterization emptyStore singleSample
  have h2 := historic_root_check_characterization emptyStore depositSample
  exact ⟨h1.1.mpr (Or.inl ⟨Or.inl rfl, rfl⟩),
    h2.2.2 (by decide) (by decide) (by decide) emptyStore⟩

/-- C3 (amended): for every transaction whose type code is outside 0..3, the
type check and the proof check both fail with UnknownTransactionType, the
historic-root check performs no lookup and succeeds, and validation as a
whole always fails; the other checks are still attempted concurrently, and
whenever the hash check passes, the surfaced error is UnknownTransactionType. -/
theorem unknown_type_always_fails (ch : Transaction → Bool) (gb : Nat → Option Block)
    (gvk : Nat → List Nat) (vf : List Nat → List Nat → List Nat → Bool)
    (t : Transaction) (ht : 4 ≤ t.transactionType) :
    checkTransactionType t = .error unknownTransactionTypeError ∧
    verifyProof gvk vf gb t = .error unknownTransactionTypeError ∧
    checkHistoricRoot gb t = .ok () ∧
    ¬ checkTransactionYields ch gb gvk vf t (.ok ()) ∧
    (checkTransactionHash ch t = .ok () →
      ∀ r, checkTransactionYields ch gb gvk vf t r →
        r = .error unknownTransactionTypeError) := by
  have htype := checkTransactionType_unknown t ht
  have hhist := checkHistoricRoot_no_lookup t (by omega) (by omega) (by omega) gb
  have hverify : verifyProof gvk vf gb t = .error unknownTransactionTypeError := by
    simp only [verifyProof, buildPublicInputs_unknown gb t ht]
  refine ⟨htype, hverify, hhist, ?_, ?_⟩
  · intro hok
    have hcontr := ((yields_ok_iff ch gb gvk vf t).mp hok).2.1
    rw [htype] at hcontr
    exact Except.noConfusion hcontr
  · intro hh r hr
    cases hr with
    | allOk h1 h2 h3 h4 =>
      rw [htype] at h2
      exact Except.noConfusion h2
    | hashFirst e h1 =>
      rw [hh] at h1
      exact Except.noConfusion h1
    | typeSecond e h1 h2 =>
      rw [htype] at h2
      simp only [Except.error.injEq] at h2
      rw [← h2]
    | historicRace e h1 h2 h3 =>
      rw [htype] at h2
      exact Except.noConfusion h2
    | proofRace e h1 h2 h3 =>
      rw [htype] at h2
      exact Except.noConfusion h2

/-- C3 witness: a concrete type-4 transaction gets UnknownTransactionType
from the type check and can never be accepted. -/
theorem unknown_type_always_fails_witness :
    checkTransactionType unknownTypeSample = .error unknownTransactionTypeError ∧
    ¬ checkTransactionYields alwaysTrueHash emptyStore noVerificationKeys
        allAcceptVerifier unknownTypeSample (.ok ()) := by
  have h := unknown_type_always_fails alwaysTrueHash emptyStore noVerificationKeys
    allAcceptVerifier unknownTypeSample (by decide)
  exact ⟨h.1, h.2.2.2.1⟩

/-- C3 counterexample: for a type-4 transaction whose stored hash does not
match, the hash check — attempted despite the unknown type — rejects first,
so validation surfaces HashMismatch and cannot surface
UnknownTransactionType; this falsifies both that validation always yields
UnknownTransactionType and that no other check is attempted. -/
theorem unknown_type_counterexample :
    checkTransactionYields alwaysFalseHash emptyStore noVerificationKeys
      allAcceptVerifier unknownTypeSample (.error hashMismatchError) ∧
    ¬ checkTransactionYields alwaysFalseHash emptyStore noVerificationKeys
      allAcceptVerifier unknownTypeSample (.error unknownTransactionTypeError) := by
  constructor
  · exact .hashFirst hashMismatchError rfl
  · intro h
    cases h with
    | hashFirst e h1 =>
      have h2 : (Except.error hashMismatchError : Except JsError Unit) =
          .error unknownTransactionTypeError := h1
      simp [hashMismatchError, unknownTransactionTypeError] at h2
    | typeSecond e h1 h2 =>
      have h3 : (Except.error hashMismatchError : Except JsError Unit) = .ok () := h1
      exact Except.noConfusion h3
    | historicRace e h1 h2 h3 =>
      have h4 : (Except.error hashMismatchError : Except JsError Unit) = .ok () := h1
      exact Except.noConfusion h4
    | proofRace e h1 h2 h3 =>
      have h4 : (Except.error hashMismatchError : Except JsError Unit) = .ok () := h1
      exact Except.noConfusion h4

/-- C7: the orchestrator always settles; it accepts exactly when all four
checks succeed on the same transaction; every surfaced error is a genuine
failure of one of the four checks; and whenever at least one check fails,
at least one failure surfaces (no silent swallowing, no partial
acceptance). -/
theorem orchestrator_all_checks (ch : Transaction → Bool) (gb : Nat → Option Block)
    (gvk : Nat → List Nat) (vf : List Nat → List Nat → List Nat → Bool)
    (t : Transaction) :
    (∃ r, checkTransactionYields ch gb gvk vf t r) ∧
    (∀ r, checkTransactionYields ch gb gvk vf t r →
      (r = .ok () ↔
        (checkTransactionHash ch t = .ok () ∧ checkTransactionType t = .ok () ∧
         checkHistoricRoot gb t = .ok () ∧ verifyProof gvk vf gb t = .ok ()))) ∧
    (∀ e, checkTransactionYields ch gb gvk vf t (.error e) →
      (checkTransactionHash ch t = .error e ∨ checkTransactionType t = .error e ∨
       checkHistoricRoot gb t = .error e ∨ verifyProof gvk vf gb t = .error e)) ∧
    (¬(checkTransactionHash ch t = .ok () ∧ checkTransactionType t = .ok () ∧
        checkHistoricRoot gb t = .ok () ∧ verifyProof gvk vf gb t = .ok ()) →
      ∃ e, checkTransactionYields ch gb gvk vf t (.error e)) := by
  refine ⟨yields_total ch gb gvk vf t, fun r hr => yields_char ch gb gvk vf t r hr,
    fun e he => yields_error_cases ch gb gvk vf t e he, ?_⟩
  intro hno
  obtain ⟨r, hr⟩ := yields_total ch gb gvk vf t
  cases r with
  | ok u =>
    cases u
    exact absurd ((yields_char ch gb gvk vf t _ hr).mp rfl) hno
  | error e => exact ⟨e, hr⟩

/-- C7 witness: a fully well-formed SINGLE_TRANSFER with an accepting
verifier is accepted, and with a rejecting verifier some failure surfaces. -/
theorem orchestrator_all_checks_witness :
    checkTransactionYields alwaysTrueHash fullStore noVerificationKeys
      allAcceptVerifier singleSample (.ok ()) ∧
    ∃ e, checkTransactionYields alwaysTrueHash fullStore noVerificationKeys
      allRejectVerifier singleSample (.error e) := by
  have h := orchestrator_all_checks alwaysTrueHash fullStore noVerificationKeys
    allRejectVerifier singleSample
  constructor
  · exact (yields_ok_iff alwaysTrueHash fullStore noVerificationKeys
      allAcceptVerifier singleSample).mpr ⟨rfl, rfl, rfl, rfl⟩
  · refine h.2.2.2 ?_
    rintro ⟨-, -, -, hp⟩
    have hbad : (Except.error proofInvalidError : Except JsError Unit) = .ok () := hp
    exact Except.noConfusion hbad

/-- C9 (amended): for a fixed transaction and fixed external state, the
accept/reject decision is deterministic — any two admissible outcomes agree
on acceptance, and an accepting outcome is unique; only the surfaced error
kind may differ between runs when several concurrent checks fail. -/
theorem validation_decision_deterministic (ch : Transaction → Bool)
    (gb : Nat → Option Block) (gvk : Nat → List Nat)
    (vf : List Nat → List Nat → List Nat → Bool) (t : Transaction)
    (r1 r2 : Except JsError Unit)
    (h1 : checkTransactionYields ch gb gvk vf t r1)
    (h2 : checkTransactionYields ch gb gvk vf t r2) :
    (r1 = .ok () ↔ r2 = .ok ()) ∧ (r1 = .ok () → r1 = r2) := by
  have c1 := yields_char ch gb gvk vf t r1 h1
  have c2 := yields_char ch gb gvk vf t r2 h2
  constructor
  · rw [c1, c2]
  · intro hok
    rw [hok, ← c2.mpr (c1.mp hok)]

/-- C9 witness: two validations of the same accepted SINGLE_TRANSFER against
the same external state yield the same accepting outcome. -/
theorem validation_decision_deterministic_witness :
    ((Except.ok () : Except JsError Unit) = .ok () ↔
      (Except.ok () : Except JsError Unit) = .ok ()) ∧
    ((Except.ok () : Except JsError Unit) = .ok () →
      (Except.ok () : Except JsError Unit) = .ok ()) := by
  have hy : checkTransactionYields alwaysTrueHash fullStore noVerificationKeys
      allAcceptVerifier singleSample (.ok ()) :=
    (yields_ok_iff alwaysTrueHash fullStore noVerificationKeys allAcceptVerifier
      singleSample).mpr ⟨rfl, rfl, rfl, rfl⟩
  exact validation_decision_deterministic alwaysTrueHash fullStore noVerificationKeys
    allAcceptVerifier singleSample (.ok ()) (.ok ()) hy hy

/-- C9 counterexample: validating one and the same SINGLE_TRANSFER against
one unchanged external state (empty block store, rejecting verifier) admits
two different surfaced error kinds — HistoricRootNotFound and ProofInvalid —
depending only on which concurrently racing check settles first, so two runs
need not yield the same error kind. -/
theorem validation_outcome_race_counterexample :
    checkTransactionYields alwaysTrueHash emptyStore noVerificationKeys
      allRejectVerifier singleSample (.error historicRootError) ∧
    checkTransactionYields alwaysTrueHash emptyStore noVerificationKeys
      allRejectVerifier singleSample (.error proofInvalidError) ∧
    historicRootError ≠ proofInvalidError := by
  refine ⟨.historicRace historicRootError rfl rfl rfl,
    .proofRace proofInvalidError rfl rfl rfl, by decide⟩

end NF
